import Mathlib

/- Shallow embedding of the pristinarr run/filter engine: the Starr client
   (src/app/starr/client.py), the run orchestrator and run history
   (src/app/runner.py) and the configuration validation (src/app/config.py).
   Remote HTTP calls are modelled as an explicit backing-service state plus a
   trace of issued calls; the randomness source (random.sample) and wall-clock
   timestamps are modelled as explicit seed / timestamp parameters. -/

namespace Pristinarr

/-- Tag record as returned by the tag endpoint: {id, label}. -/
structure Tag where
  id : Nat
  label : String
  deriving DecidableEq, Repr

/-- Quality profile record as returned by the qualityprofile endpoint. -/
structure QualityProfile where
  id : Nat
  name : String
  deriving DecidableEq, Repr

/-- Media item snapshot with the fields the core consumes
    (client.py filter_media, runner.py title extraction).  Fields read with
    dict.get defaults in the source are modelled with matching defaults:
    status defaults to the empty string, tags to the empty list; the three
    name fields are optional since their presence depends on service kind. -/
structure MediaItem where
  id : Nat
  monitored : Bool
  status : String
  tags : List Nat
  qualityProfileId : Option Nat
  title : Option String
  artistName : Option String
  authorName : Option String
  deriving DecidableEq, Repr

/-- State of one backing media service (external collaborator): its tag
    list, the id it will assign to the next created tag, its quality
    profiles and its media library. -/
structure ServiceState where
  tags : List Tag
  nextTagId : Nat
  profiles : List QualityProfile
  media : List MediaItem
  deriving DecidableEq, Repr

/-- One remote or outbound call issued during a run, in issue order. -/
inductive Call where
  | getApiVersion
  | getTags
  | createTag (label : String) (id : Nat)
  | getProfiles
  | getMedia
  | bulkEdit (idField : String) (ids : List Nat) (tagId : Nat) (applyTags : String)
  | searchBatch (command : String) (idField : String) (ids : List Nat)
  | searchSingle (command : String) (idField : String) (id : Nat)
  | notifyDispatch (description : String)
  | discordSend (description : String)
  | notifiarrSend (channel : Int) (description : String)
  deriving DecidableEq, Repr

/-- Error channel of a run: runner.py and client.py signal configuration
    problems by raising ValueError (the ConfigurationError of the spec). -/
inductive RunError where
  | valueError (msg : String)
  deriving DecidableEq, Repr

/-- Return value of run_application: {searched_count, items}. -/
structure RunResult where
  searched_count : Nat
  items : List String
  deriving DecidableEq, Repr

/-- One run-history record (runner.py add_run_history). -/
structure RunRec where
  timestamp : String
  application : String
  success : Bool
  searched_count : Nat
  message : String
  deriving DecidableEq, Repr

/-- Application configuration section: raw string values as read from the
    INI file; a missing key is none (dict.get defaults are applied at each
    use site, exactly as the source does). -/
structure AppConfig where
  ApiKey : Option String
  Url : Option String
  TagName : Option String
  Count : Option String
  Monitored : Option String
  Unattended : Option String
  IgnoreTag : Option String
  QualityProfileName : Option String
  MovieStatus : Option String
  SeriesStatus : Option String
  ArtistStatus : Option String
  AuthorStatus : Option String
  deriving DecidableEq, Repr

/-- Notification-related keys of a Notifications or General section. -/
structure NotifSection where
  DiscordWebhook : Option String
  NotifiarrPassthroughWebhook : Option String
  NotifiarrPassthroughDiscordChannelId : Option String
  deriving DecidableEq, Repr

/-- The two config sections _send_notifications may read. -/
structure NotifSettings where
  notifications : Option NotifSection
  general : Option NotifSection
  deriving DecidableEq, Repr

/-- Python truthiness of an optional string: None and the empty string are
    falsy (used for the `if status:` / `if ignore_tag:` style guards). -/
def pyTruthy : Option String → Bool
  | none => false
  | some s => !(s == "")

/-- Model of the Python str.lower primitive, character by character. -/
def pyLower (s : String) : String := ⟨s.data.map Char.toLower⟩

/-- Strip leading and trailing whitespace from a character list. -/
def stripChars (cs : List Char) : List Char :=
  ((cs.dropWhile Char.isWhitespace).reverse.dropWhile Char.isWhitespace).reverse

/-- Model of the Python str.strip primitive. -/
def pyStrip (s : String) : String := ⟨stripChars s.data⟩

/-- Model of the Python str.startswith primitive (the regex ^https?://
    check of config.py amounts to two startswith tests). -/
def pyStartsWith (s pat : String) : Bool := pat.data.isPrefixOf s.data

/-- Decimal digit value of a character, if any. -/
def charDigit? (c : Char) : Option Nat :=
  if 48 ≤ c.toNat ∧ c.toNat ≤ 57 then some (c.toNat - 48) else none

/-- Parse a non-empty all-digit character list as a natural number. -/
def digitsToNat? (cs : List Char) : Option Nat :=
  if cs.isEmpty then none
  else cs.foldl (fun acc c =>
    match acc, charDigit? c with
    | some a, some d => some (a * 10 + d)
    | _, _ => none) (some 0)

/-- Model of Python int() applied to a string: surrounding whitespace is
    ignored, then an optionally signed decimal literal is parsed. -/
def pyInt? (s : String) : Option Int :=
  match stripChars s.data with
  | '-' :: rest => (digitsToNat? rest).map (fun n => -(n : Int))
  | '+' :: rest => (digitsToNat? rest).map (fun n => (n : Int))
  | cs => (digitsToNat? cs).map (fun n => (n : Int))

/-- Substring containment test, modelling the Python `pat in s` operator. -/
def strContains (s pat : String) : Bool :=
  (List.range (s.data.length + 1)).any (fun i => pat.data.isPrefixOf (s.data.drop i))

/-- Model of the Python slice l[-limit:] for a non-negative limit: for
    limit = 0 the slice l[-0:] is l[0:], the whole list; otherwise the last
    limit elements. -/
def pySliceLast {α : Type} (l : List α) (limit : Nat) : List α :=
  if limit = 0 then l else l.drop (l.length - limit)

/-- runner.py get_run_history: return the run history, most recent first,
    capped at the caller-supplied limit. -/
def get_run_history (hist : List RunRec) (limit : Nat) : List RunRec :=
  (pySliceLast hist limit).reverse

/-- runner.py add_run_history: append an entry, then pop the oldest entry
    if the history now holds more than 100 entries. -/
def add_run_history (hist : List RunRec) (timestamp : String) (application : String)
    (success : Bool) (searched_count : Nat) (message : String) : List RunRec :=
  let h := hist ++ [⟨timestamp, application, success, searched_count, message⟩]
  if h.length > 100 then h.drop 1 else h

/-- runner.py / config.py app-type detection: first of the four service
    kind keywords contained in the lowercased application name. -/
def determine_app_type (app_name : String) : Option String :=
  ["radarr", "sonarr", "lidarr", "readarr"].find? (fun t => strContains (pyLower app_name) t)

def VALID_MOVIE_STATUS : List String := ["tba", "announced", "incinemas", "released", "deleted"]

def VALID_SERIES_STATUS : List String := ["continuing", "ended", "upcoming", "deleted"]

def VALID_ARTIST_STATUS : List String := ["continuing", "ended"]

def VALID_AUTHOR_STATUS : List String := ["continuing", "ended"]

/-- config.py validate_application_config: collect all validation error
    messages for one application section. -/
def validate_application_config (app_name : String) (cfg : AppConfig) : List String :=
  match determine_app_type app_name with
  | none =>
    [s!"Cannot determine application type from \x22{app_name}\x22. Name must contain one of: radarr, sonarr, lidarr, readarr"]
  | some app_type =>
    (if (pyStrip (cfg.ApiKey.getD "")).length = 32 then []
     else [s!"API Key for \x22{app_name}\x22 is not 32 characters long"]) ++
    (if (pyStartsWith (pyStrip (cfg.Url.getD "")) "http://" || pyStartsWith (pyStrip (cfg.Url.getD "")) "https://") then []
     else [s!"URL for \x22{app_name}\x22 is not formatted correctly. It should start with \x22http://\x22 or \x22https://\x22"]) ++
    (if pyLower (pyStrip (cfg.Count.getD "10")) = "max" then []
     else
       match pyInt? (pyLower (pyStrip (cfg.Count.getD "10"))) with
       | none => [s!"Count for \x22{app_name}\x22 must be an integer or \x22max\x22"]
       | some n => if n < 1 then [s!"Count for \x22{app_name}\x22 must be greater than 0 or \x22max\x22"] else []) ++
    (if ["true", "false"].contains (pyLower (pyStrip (cfg.Monitored.getD "true"))) then []
     else [s!"Monitored for \x22{app_name}\x22 must be \x22true\x22 or \x22false\x22"]) ++
    (if ["true", "false"].contains (pyLower (pyStrip (cfg.Unattended.getD "false"))) then []
     else [s!"Unattended for \x22{app_name}\x22 must be \x22true\x22 or \x22false\x22"]) ++
    (if pyStrip (cfg.TagName.getD "") = "" then [s!"TagName must be specified for \x22{app_name}\x22"] else []) ++
    (if app_type = "radarr" then
       (if pyLower (pyStrip (cfg.MovieStatus.getD "")) = "" || VALID_MOVIE_STATUS.contains (pyLower (pyStrip (cfg.MovieStatus.getD ""))) then []
        else [s!"MovieStatus for \x22{app_name}\x22 is not valid. Expected one of: " ++ String.intercalate ", " VALID_MOVIE_STATUS])
     else if app_type = "sonarr" then
       (if pyLower (pyStrip (cfg.SeriesStatus.getD "")) = "" || VALID_SERIES_STATUS.contains (pyLower (pyStrip (cfg.SeriesStatus.getD ""))) then []
        else [s!"SeriesStatus for \x22{app_name}\x22 is not valid. Expected one of: " ++ String.intercalate ", " VALID_SERIES_STATUS])
     else if app_type = "lidarr" then
       (if pyLower (pyStrip (cfg.ArtistStatus.getD "")) = "" || VALID_ARTIST_STATUS.contains (pyLower (pyStrip (cfg.ArtistStatus.getD ""))) then []
        else [s!"ArtistStatus for \x22{app_name}\x22 is not valid. Expected one of: " ++ String.intercalate ", " VALID_ARTIST_STATUS])
     else if app_type = "readarr" then
       (if pyLower (pyStrip (cfg.AuthorStatus.getD "")) = "" || VALID_AUTHOR_STATUS.contains (pyLower (pyStrip (cfg.AuthorStatus.getD ""))) then []
        else [s!"AuthorStatus for \x22{app_name}\x22 is not valid. Expected one of: " ++ String.intercalate ", " VALID_AUTHOR_STATUS])
     else [])

/-- client.py get_tag_id label lookup: case-insensitive, first match wins. -/
def lookupTagId (tags : List Tag) (name : String) : Option Nat :=
  (tags.find? (fun t => pyLower t.label == pyLower name)).map (fun t => t.id)

/-- client.py get_tag_id: one get_tags call, then the label lookup. -/
def get_tag_id (svc : ServiceState) (name : String) : Option Nat × List Call :=
  (lookupTagId svc.tags name, [Call.getTags])

/-- Result of resolving or creating a tag: the id, the (possibly updated)
    service state and the calls issued. -/
structure TagResolveOut where
  id : Nat
  svc : ServiceState
  calls : List Call
  deriving DecidableEq, Repr

/-- client.py create_tag: POST a new tag; the service assigns the next id. -/
def create_tag (svc : ServiceState) (name : String) : TagResolveOut :=
  ⟨svc.nextTagId,
   { svc with tags := svc.tags ++ [⟨svc.nextTagId, name⟩], nextTagId := svc.nextTagId + 1 },
   [Call.createTag name svc.nextTagId]⟩

/-- client.py get_or_create_tag: look the tag up, create it if absent. -/
def get_or_create_tag (svc : ServiceState) (name : String) : TagResolveOut :=
  match get_tag_id svc name with
  | (some id, calls) => ⟨id, svc, calls⟩
  | (none, calls) =>
    let created := create_tag svc name
    ⟨created.id, created.svc, calls ++ created.calls⟩

/-- Message of client.py lines 290-292. -/
def profile_missing_msg (name : String) (app_type : String) : String :=
  s!"Quality Profile \x27{name}\x27 does not exist in {app_type}"

/-- client.py get_quality_profile_id: case-insensitive name lookup; raises
    ValueError when the profile does not exist. -/
def get_quality_profile_id (svc : ServiceState) (app_type : String) (name : String) :
    Except RunError Nat × List Call :=
  match (svc.profiles.find? (fun p => pyLower p.name == pyLower name)).map (fun p => p.id) with
  | some id => (.ok id, [Call.getProfiles])
  | none =>
    (.error (.valueError (profile_missing_msg name app_type)), [Call.getProfiles])

/-- client.py _get_media_id_field lookup with its fall-back default. -/
def get_media_id_field (app_type : String) : String :=
  if app_type == "radarr" then "movieIds"
  else if app_type == "sonarr" then "seriesIds"
  else if app_type == "lidarr" then "artistIds"
  else if app_type == "readarr" then "authorIds"
  else "movieIds"

/-- client.py _get_search_command_name lookup with its fall-back default. -/
def get_search_command_name (app_type : String) : String :=
  if app_type == "radarr" then "MoviesSearch"
  else if app_type == "sonarr" then "SeriesSearch"
  else if app_type == "lidarr" then "ArtistSearch"
  else if app_type == "readarr" then "AuthorSearch"
  else "MoviesSearch"

/-- client.py _get_search_id_field lookup: plural for radarr, singular for
    the other three kinds, with the fall-back default. -/
def get_search_id_field (app_type : String) : String :=
  if app_type == "radarr" then "movieIds"
  else if app_type == "sonarr" then "seriesId"
  else if app_type == "lidarr" then "artistId"
  else if app_type == "readarr" then "authorId"
  else "movieIds"

/-- Model of the backing service applying a bulk tag edit (external
    collaborator, spec section 6): every item whose id is listed gets the
    tag added or removed. -/
def applyTagEdit (media : List MediaItem) (ids : List Nat) (tagId : Nat) (add : Bool) :
    List MediaItem :=
  media.map (fun m =>
    if ids.contains m.id then
      { m with tags :=
          if add then (if m.tags.contains tagId then m.tags else m.tags ++ [tagId])
          else m.tags.filter (fun t => t != tagId) }
    else m)

/-- client.py add_media_tag: no call when the list is empty, otherwise one
    bulk-editor PUT carrying the full id list with applyTags add. -/
def add_media_tag (svc : ServiceState) (app_type : String) (media : List MediaItem)
    (tag_id : Nat) : ServiceState × List Call :=
  if media.isEmpty then (svc, [])
  else
    ({ svc with media := applyTagEdit svc.media (media.map (fun m => m.id)) tag_id true },
     [Call.bulkEdit (get_media_id_field app_type) (media.map (fun m => m.id)) tag_id "add"])

/-- client.py remove_media_tag: no call when the list is empty, otherwise
    one bulk-editor PUT carrying the full id list with applyTags remove. -/
def remove_media_tag (svc : ServiceState) (app_type : String) (media : List MediaItem)
    (tag_id : Nat) : ServiceState × List Call :=
  if media.isEmpty then (svc, [])
  else
    ({ svc with media := applyTagEdit svc.media (media.map (fun m => m.id)) tag_id false },
     [Call.bulkEdit (get_media_id_field app_type) (media.map (fun m => m.id)) tag_id "remove"])

/-- client.py search_media: nothing on an empty list; one batched command
    for radarr; one command per item, in list order, for the other kinds. -/
def search_media (app_type : String) (media : List MediaItem) : List Call :=
  if media.isEmpty then []
  else if app_type == "radarr" then
    [Call.searchBatch (get_search_command_name app_type) (get_search_id_field app_type)
      (media.map (fun m => m.id))]
  else
    media.map (fun item =>
      Call.searchSingle (get_search_command_name app_type) (get_search_id_field app_type) item.id)

/-- Per-item predicate of client.py filter_media: the conjunction of the
    monitored check, the mode-dependent tag gate, the optional status and
    quality-profile checks and the normal-mode-only ignore-tag gate. -/
def filter_pred (tag_id : Nat) (monitored : Bool) (status : Option String)
    (quality_profile_id : Option Nat) (ignore_tag_id : Option Nat)
    (unattended : Bool) (item : MediaItem) : Bool :=
  (item.monitored == monitored)
  && (if unattended then item.tags.contains tag_id else !(item.tags.contains tag_id))
  && (if pyTruthy status then pyLower item.status == pyLower (status.getD "") else true)
  && (match quality_profile_id with
      | some q => item.qualityProfileId == some q
      | none => true)
  && (if !unattended then
        (match ignore_tag_id with
         | some ig => !(item.tags.contains ig)
         | none => true)
      else true)

/-- client.py filter_media: keep, in input order, the items that pass every
    check. -/
def filter_media (media : List MediaItem) (tag_id : Nat) (monitored : Bool)
    (status : Option String) (quality_profile_id : Option Nat)
    (ignore_tag_id : Option Nat) (unattended : Bool) : List MediaItem :=
  media.filter (filter_pred tag_id monitored status quality_profile_id ignore_tag_id unattended)

/-- Linear congruential step used by the deterministic model of the
    random.sample randomness source. -/
def lcg (s : Nat) : Nat := (s * 1103515245 + 12345) % 2147483648

/-- Remove the element at an index (take-and-drop form). -/
def removeAt {α : Type} (l : List α) (i : Nat) : List α :=
  l.take i ++ l.drop (i + 1)

/-- Deterministic model of random.sample keyed by a seed: repeatedly pick a
    position from the remaining pool and remove it, so the draw is without
    replacement.  The Python library function is an external randomness
    source; only its without-replacement and size contracts matter here. -/
def random_sample : Nat → List MediaItem → Nat → List MediaItem
  | _, _, 0 => []
  | seed, pool, Nat.succ k =>
    if h : pool.length = 0 then []
    else
      let i := seed % pool.length
      (pool.get ⟨i, Nat.mod_lt seed (Nat.pos_of_ne_zero h)⟩)
        :: random_sample (lcg seed) (removeAt pool i) k

/-- SELECT step of runner.py (lines 195-201): the whole filtered list for
    the case-insensitive literal max, otherwise a random sample of
    min(count, len(filtered)) items; int() failure and a negative sample
    size surface as the ValueErrors Python raises. -/
def select_media (count_str : String) (filtered : List MediaItem) (seed : Nat) :
    Except RunError (List MediaItem) :=
  if pyLower count_str == "max" then .ok filtered
  else
    match pyInt? count_str with
    | none => .error (.valueError s!"invalid literal for int() with base 10: \x27{count_str}\x27")
    | some n =>
      if n < 0 then .error (.valueError "Sample larger than population or is negative")
      else .ok (random_sample seed filtered (min n.toNat filtered.length))

/-- runner.py title extraction: artistName for lidarr, authorName for
    readarr, title otherwise, each defaulting to Unknown. -/
def media_title (app_type : String) (item : MediaItem) : String :=
  if app_type == "lidarr" then item.artistName.getD "Unknown"
  else if app_type == "readarr" then item.authorName.getD "Unknown"
  else item.title.getD "Unknown"

/-- runner.py monitored flag: Monitored defaults to true and is compared
    lowercased against the literal true. -/
def run_monitored (cfg : AppConfig) : Bool :=
  pyLower (cfg.Monitored.getD "true") == "true"

/-- runner.py unattended flag: Unattended defaults to false and is compared
    lowercased against the literal true. -/
def run_unattended (cfg : AppConfig) : Bool :=
  pyLower (cfg.Unattended.getD "false") == "true"

/-- runner.py status filter selection: the status key read depends on the
    resolved application type. -/
def status_for (app_type : String) (cfg : AppConfig) : Option String :=
  if app_type == "radarr" then cfg.MovieStatus
  else if app_type == "sonarr" then cfg.SeriesStatus
  else if app_type == "lidarr" then cfg.ArtistStatus
  else if app_type == "readarr" then cfg.AuthorStatus
  else none

/-- runner.py _send_notifications message body (lines 262-271): zero-count
    text, or a header plus inline titles when at most 20, else a
    truncation notice. -/
def build_description (app_name : String) (count : Nat) (titles : List String) : String :=
  if count = 0 then s!"No media left to search for {app_name}"
  else
    let base := s!"Search started for {count} media items in {app_name}:"
    if titles.length ≤ 20 then
      titles.foldl (fun d t => d ++ s!"\n- {t}") base
    else
      base ++ "\n\n*The list of media items is too long to display here.*"

/-- runner.py _send_notifications: read the webhook settings from the
    Notifications section, else from General; build the description; then
    best-effort send on each configured channel.  The notifyDispatch call
    records the dispatch invocation itself (the collaborator boundary);
    channel errors are swallowed in the source, so the model only records
    the attempted sends. -/
def send_notifications (notif : NotifSettings) (app_name : String) (app_type : String)
    (count : Nat) (titles : List String) : List Call :=
  let section_ := match notif.notifications with
    | some n => some n
    | none => notif.general
  let discord_webhook := match section_ with
    | some n => n.DiscordWebhook
    | none => none
  let notifiarr_webhook := match section_ with
    | some n => n.NotifiarrPassthroughWebhook
    | none => none
  let notifiarr_channel := match section_ with
    | some n => n.NotifiarrPassthroughDiscordChannelId
    | none => none
  let description := build_description app_name count titles
  [Call.notifyDispatch description]
  ++ (if pyTruthy discord_webhook then [Call.discordSend description] else [])
  ++ (if pyTruthy notifiarr_webhook && pyTruthy notifiarr_channel then
        match pyInt? (notifiarr_channel.getD "") with
        | some ch => [Call.notifiarrSend ch description]
        | none => []
      else [])

/-- Decidable equality for the Except error channel, so run outcomes can be
    compared by decide in concrete examples. -/
def exceptDecEq {ε α : Type} [DecidableEq ε] [DecidableEq α] :
    DecidableEq (Except ε α) := fun x y =>
  match x, y with
  | .error a, .error b =>
    if h : a = b then isTrue (congrArg Except.error h)
    else isFalse (fun hc => h (Except.error.inj hc))
  | .error _, .ok _ => isFalse (fun hc => Except.noConfusion hc)
  | .ok _, .error _ => isFalse (fun hc => Except.noConfusion hc)
  | .ok a, .ok b =>
    if h : a = b then isTrue (congrArg Except.ok h)
    else isFalse (fun hc => h (Except.ok.inj hc))

instance {ε α : Type} [DecidableEq ε] [DecidableEq α] : DecidableEq (Except ε α) :=
  exceptDecEq

/-- Full observable outcome of one run_application invocation: the returned
    value or raised error, the final backing-service state, the remote and
    outbound calls issued in order, and the run history. -/
structure RunOutcome where
  result : Except RunError RunResult
  svc : ServiceState
  calls : List Call
  history : List RunRec
  deriving DecidableEq, Repr

/-- Context reaching the SELECT step of run_application: everything lines
    194 onward of runner.py read. -/
structure SelectCtx where
  app_name : String
  app_type : String
  cfg : AppConfig
  notif : NotifSettings
  tag_id : Nat
  filtered : List MediaItem
  svc : ServiceState
  calls : List Call
  history : List RunRec
  deriving DecidableEq, Repr

/-- Intermediate result of the part of run_application before SELECT:
    either an early exit (validation failure, configuration error, or the
    empty-result return) or the context handed to the SELECT step. -/
inductive Phase1Result where
  | exit (o : RunOutcome)
  | cont (c : SelectCtx)
  deriving DecidableEq, Repr

/-- Message of runner.py line 183. -/
def no_media_msg (app_name : String) : String :=
  s!"No media left to process for {app_name}"

/-- Message of runner.py line 113. -/
def collision_msg (tag_name : String) : String :=
  s!"TagName and IgnoreTag cannot be the same: {tag_name}"

/-- Message of runner.py line 78. -/
def config_errors_msg (app_name : String) (errors : List String) : String :=
  s!"Configuration errors for {app_name}: " ++ String.intercalate "; " errors

/-- Zero-count early return of runner.py lines 182-190: record a successful
    run with zero count, dispatch notifications, return searched_count 0
    with no items. -/
def finish_empty (app_name : String) (app_type : String) (notif : NotifSettings)
    (svc : ServiceState) (calls : List Call) (hist : List RunRec) (now : String) :
    Phase1Result :=
  .exit ⟨.ok ⟨0, []⟩, svc,
    calls ++ send_notifications notif app_name app_type 0 [],
    add_run_history hist now app_name true 0 (no_media_msg app_name)⟩

/-- runner.py lines 121-192: fetch all media, run the normal-mode filter,
    and on an empty result optionally perform the unattended untag-and-retry
    cycle (probe filter over the same fetched media, bulk tag removal,
    re-fetch, one more normal-mode filter) before either returning the
    zero-count result or handing the filtered list to SELECT. -/
def phase1_filter (app_name : String) (app_type : String) (cfg : AppConfig)
    (notif : NotifSettings) (tag_id : Nat) (ignore_tag_id : Option Nat)
    (quality_profile_id : Option Nat) (svc : ServiceState) (calls : List Call)
    (hist : List RunRec) (now : String) : Phase1Result :=
  let monitored := run_monitored cfg
  let unattended := run_unattended cfg
  let status := status_for app_type cfg
  let callsM := calls ++ [Call.getMedia]
  let filtered := filter_media svc.media tag_id monitored status quality_profile_id ignore_tag_id false
  if filtered.isEmpty then
    let retry :=
      if unattended then
        let probe := filter_media svc.media tag_id monitored status quality_profile_id ignore_tag_id true
        if probe.isEmpty then (filtered, svc, callsM)
        else
          let removed := remove_media_tag svc app_type probe tag_id
          let calls2 := callsM ++ removed.2 ++ [Call.getMedia]
          (filter_media removed.1.media tag_id monitored status quality_profile_id ignore_tag_id false,
           removed.1, calls2)
      else (filtered, svc, callsM)
    if retry.1.isEmpty then
      finish_empty app_name app_type notif retry.2.1 retry.2.2 hist now
    else
      .cont ⟨app_name, app_type, cfg, notif, tag_id, retry.1, retry.2.1, retry.2.2, hist⟩
  else
    .cont ⟨app_name, app_type, cfg, notif, tag_id, filtered, svc, callsM, hist⟩

/-- runner.py lines 115-119 then 121 onward: resolve the optional quality
    profile id (raising when the profile is missing) and continue with the
    filter phase. -/
def phase1_quality (app_name : String) (app_type : String) (cfg : AppConfig)
    (notif : NotifSettings) (tag_id : Nat) (ignore_tag_id : Option Nat)
    (svc : ServiceState) (calls : List Call) (hist : List RunRec) (now : String) :
    Phase1Result :=
  if pyTruthy cfg.QualityProfileName then
    match get_quality_profile_id svc app_type (cfg.QualityProfileName.getD "") with
    | (.ok q, callsQ) =>
      phase1_filter app_name app_type cfg notif tag_id ignore_tag_id (some q) svc
        (calls ++ callsQ) hist now
    | (.error e, callsQ) =>
      .exit ⟨.error e, svc, calls ++ callsQ, hist⟩
  else
    phase1_filter app_name app_type cfg notif tag_id ignore_tag_id none svc calls hist now

/-- runner.py lines 75-192 (everything before SELECT): validation, app-type
    detection, API-version fetch, processed-tag resolution (creating the tag
    when absent), the ignore-tag collision check, quality-profile
    resolution, then the filter phase.  Note dry_run plays no part here. -/
def phase1 (app_name : String) (cfg : AppConfig) (notif : NotifSettings)
    (svc : ServiceState) (hist : List RunRec) (now : String) : Phase1Result :=
  let errors := validate_application_config app_name cfg
  if errors.isEmpty then
    match determine_app_type app_name with
    | none =>
      .exit ⟨.error (.valueError s!"Cannot determine application type from name: {app_name}"),
        svc, [], hist⟩
    | some app_type =>
      let calls0 := [Call.getApiVersion]
      let tag_name := cfg.TagName.getD ""
      let resolved := get_or_create_tag svc tag_name
      let calls1 := calls0 ++ resolved.calls
      if pyTruthy cfg.IgnoreTag then
        let ignored := get_tag_id resolved.svc (cfg.IgnoreTag.getD "")
        let calls2 := calls1 ++ ignored.2
        if ignored.1 == some resolved.id then
          .exit ⟨.error (.valueError (collision_msg tag_name)), resolved.svc, calls2, hist⟩
        else
          phase1_quality app_name app_type cfg notif resolved.id ignored.1 resolved.svc
            calls2 hist now
      else
        phase1_quality app_name app_type cfg notif resolved.id none resolved.svc calls1 hist now
  else
    let error_msg := config_errors_msg app_name errors
    .exit ⟨.error (.valueError error_msg), svc, [],
      add_run_history hist now app_name false 0 error_msg⟩

/-- runner.py lines 194-233: the SELECT step, the dry-run early return, and
    the search / tag / record / notify tail of a real run. -/
def select_and_finish (dry_run : Bool) (seed : Nat) (now : String) (c : SelectCtx) :
    RunOutcome :=
  match select_media (c.cfg.Count.getD "10") c.filtered seed with
  | .error e => ⟨.error e, c.svc, c.calls, c.history⟩
  | .ok media_to_search =>
    let titles := media_to_search.map (media_title c.app_type)
    let n := media_to_search.length
    if dry_run then
      let msg := s!"Dry run: would search {n} items in " ++ c.app_name
      ⟨.ok ⟨n, titles⟩, c.svc, c.calls,
       add_run_history c.history now c.app_name true n ("[DRY RUN] " ++ msg)⟩
    else
      let searchCalls := search_media c.app_type media_to_search
      let tagged := add_media_tag c.svc c.app_type media_to_search c.tag_id
      let msg := s!"Searched {n} items in " ++ c.app_name
      ⟨.ok ⟨n, titles⟩, tagged.1,
       c.calls ++ searchCalls ++ tagged.2
         ++ send_notifications c.notif c.app_name c.app_type n titles,
       add_run_history c.history now c.app_name true n msg⟩

/-- runner.py run_application for one application: the pre-SELECT phase
    followed, when media survived filtering, by the SELECT step and the
    finishing calls.  The configuration section, backing-service state,
    random seed and timestamp are explicit inputs. -/
def run_application (app_name : String) (cfg : AppConfig) (notif : NotifSettings)
    (dry_run : Bool) (seed : Nat) (svc : ServiceState) (hist : List RunRec)
    (now : String) : RunOutcome :=
  match phase1 app_name cfg notif svc hist now with
  | .exit o => o
  | .cont c => select_and_finish dry_run seed now c

/-- Result of run_application as consumed by run_all_applications. -/
structure AppRunResult where
  searched_count : Nat
  items : List String
  deriving DecidableEq, Repr

/-- Per-application entry of the run_all_applications result list: the
    success spread of the run result, or the failure entry built from the
    caught exception. -/
inductive SectionResult where
  | ok (application : String) (searched_count : Nat) (items : List String)
  | failed (application : String) (error : String)
  deriving DecidableEq, Repr

/-- Aggregate returned by run_all_applications. -/
structure AllOutcome where
  total_searched : Nat
  results : List SectionResult
  items : List String
  deriving DecidableEq, Repr

/-- The reserved section names run_all_applications skips. -/
def excluded_sections : List String := ["Notifications", "General", "Scheduler"]

/-- Loop body of run_all_applications: skip reserved sections; on success
    accumulate the count, the entry and the items; on an exception record a
    failure entry and continue. -/
def run_all_step (runOne : String → Except RunError AppRunResult) (acc : AllOutcome)
    (s : String) : AllOutcome :=
  if excluded_sections.contains s then acc
  else
    match runOne s with
    | .ok r =>
      ⟨acc.total_searched + r.searched_count,
       acc.results ++ [SectionResult.ok s r.searched_count r.items],
       acc.items ++ r.items⟩
    | .error (.valueError m) =>
      ⟨acc.total_searched, acc.results ++ [SectionResult.failed s m], acc.items⟩

/-- runner.py run_all_applications: iterate the configured sections in
    order, running each application independently; runOne stands for the
    awaited run_application call, which either returns a result or raises. -/
def run_all_applications (sections : List String)
    (runOne : String → Except RunError AppRunResult) : AllOutcome :=
  sections.foldl (run_all_step runOne) ⟨0, [], []⟩

/- Concrete fixtures used by witnesses and counterexamples. -/

/-- A monitored, untagged media item. -/
def mItem1 : MediaItem := ⟨1, true, "released", [], none, some "A", none, none⟩

/-- A monitored media item carrying tag 0. -/
def mItem2 : MediaItem := ⟨2, true, "released", [0], none, some "B", none, none⟩

/-- A third monitored, untagged media item. -/
def mItem3 : MediaItem := ⟨3, true, "released", [], none, some "C", none, none⟩

/-- A valid configuration with unattended mode enabled. -/
def cfgUw : AppConfig :=
  ⟨some "abcdefghabcdefghabcdefghabcdefgh", some "http://x", some "proc", some "max",
   none, some "true", none, none, none, none, none, none⟩

/-- A valid configuration whose TagName and IgnoreTag differ only in case,
    so both resolve to the same tag id. -/
def cfgCol : AppConfig :=
  ⟨some "abcdefghabcdefghabcdefghabcdefgh", some "http://x", some "keep", some "max",
   none, none, some "KEEP", none, none, none, none, none⟩

/-- A valid configuration with a fresh processed-tag name. -/
def cfgNew : AppConfig :=
  ⟨some "abcdefghabcdefghabcdefghabcdefgh", some "http://x", some "proc", some "max",
   none, none, none, none, none, none, none, none⟩

/-- A configuration whose API key is too short, failing validation. -/
def cfgBad : AppConfig :=
  ⟨some "short", some "http://x", some "proc", some "max",
   none, none, none, none, none, none, none, none⟩

/-- A valid configuration naming a quality profile that does not exist. -/
def cfgProf : AppConfig :=
  ⟨some "abcdefghabcdefghabcdefghabcdefgh", some "http://x", some "proc", some "max",
   none, none, none, some "Ultra", none, none, none, none⟩

/-- A backing service that already carries the configured processed tag. -/
def svcTagged : ServiceState := ⟨[⟨0, "proc"⟩], 1, [], [mItem1]⟩

/-- The SELECT context a run over svcTagged with cfgNew reaches. -/
def ctx7 : SelectCtx :=
  ⟨"radarr", "radarr", cfgNew, ⟨none, none⟩, 0, [mItem1], svcTagged,
   [Call.getApiVersion, Call.getTags, Call.getMedia], []⟩

/-- The selection the SELECT step yields over ctx7. -/
def sel7 : List MediaItem := [mItem1]

/-- A backing service where the tag named keep already exists. -/
def svcKeep : ServiceState := ⟨[⟨0, "keep"⟩], 1, [], [mItem1]⟩

/- Call classification helpers. -/

/-- Test for the media-listing GET. -/
def isGetMedia : Call → Bool
  | .getMedia => true
  | _ => false

/-- Test for a bulk tag-removal edit. -/
def isRemoveEdit : Call → Bool
  | .bulkEdit _ _ _ apply => apply == "remove"
  | _ => false

/-- Test for a bulk tag-addition edit. -/
def isAddEdit : Call → Bool
  | .bulkEdit _ _ _ apply => apply == "add"
  | _ => false

/-- Test for a search command (batched or per-item). -/
def isSearchCall : Call → Bool
  | .searchBatch _ _ _ => true
  | .searchSingle _ _ _ => true
  | _ => false

/-- Test for an outbound notification channel send. -/
def isNotifySend : Call → Bool
  | .discordSend _ => true
  | .notifiarrSend _ _ => true
  | _ => false

/-- Test for the notification-dispatch invocation marker. -/
def isNotifyDispatch : Call → Bool
  | .notifyDispatch _ => true
  | _ => false

/-- Test for tag creation. -/
def isCreateTag : Call → Bool
  | .createTag _ _ => true
  | _ => false

/-- Test for any remote or outbound call that mutates state outside the
    process: tag creation, bulk tag edits, search commands, channel sends. -/
def isMutatingCall : Call → Bool
  | .createTag _ _ => true
  | .bulkEdit _ _ _ _ => true
  | .searchBatch _ _ _ => true
  | .searchSingle _ _ _ => true
  | .discordSend _ => true
  | .notifiarrSend _ _ => true
  | _ => false

/-- Test for any call the post-SELECT tail of a real run can issue:
    searches, tag additions, or notification activity. -/
def isFinishCall (a : Call) : Bool :=
  isSearchCall a || isAddEdit a || isNotifySend a || isNotifyDispatch a

/-- Calls carried by a phase-1 result, whether it exited or continued. -/
def phase1ResultCalls : Phase1Result → List Call
  | .exit o => o.calls
  | .cont c => c.calls

/- Helper lemmas. -/

theorem removeAt_length {α : Type} (l : List α) (i : Nat) (h : i < l.length) :
    (removeAt l i).length = l.length - 1 := by
  simp only [removeAt, List.length_append, List.length_take, List.length_drop]
  omega

theorem get_cons_removeAt_perm {α : Type} (l : List α) :
    ∀ (i : Nat) (h : i < l.length), List.Perm (l.get ⟨i, h⟩ :: removeAt l i) l := by
  induction l with
  | nil => intro i h; simp at h
  | cons x xs ih =>
    intro i h
    match i with
    | 0 => simp [removeAt]
    | Nat.succ j =>
      have hj : j < xs.length := by simpa using h
      have hperm := ih j hj
      simp only [removeAt, List.take_succ_cons, List.drop_succ_cons, List.get_cons_succ]
      exact (List.Perm.swap x (xs.get ⟨j, hj⟩) _).trans (hperm.cons x)

theorem random_sample_length :
    ∀ (k seed : Nat) (pool : List MediaItem),
      (random_sample seed pool k).length = min k pool.length := by
  intro k
  induction k with
  | zero => intro seed pool; simp [random_sample]
  | succ k ih =>
    intro seed pool
    by_cases h : pool.length = 0
    · simp [random_sample, h]
    · rw [random_sample, dif_neg h]
      have hlt : seed % pool.length < pool.length := Nat.mod_lt seed (Nat.pos_of_ne_zero h)
      simp only [List.length_cons, ih, removeAt_length pool _ hlt]
      omega

theorem random_sample_subset :
    ∀ (k seed : Nat) (pool : List MediaItem),
      (↑(random_sample seed pool k) : Multiset MediaItem) ≤ (↑pool : Multiset MediaItem) := by
  intro k
  induction k with
  | zero => intro seed pool; simp [random_sample]
  | succ k ih =>
    intro seed pool
    by_cases h : pool.length = 0
    · simp [random_sample, h]
    · rw [random_sample, dif_neg h]
      have hlt : seed % pool.length < pool.length := Nat.mod_lt seed (Nat.pos_of_ne_zero h)
      have hstep := Multiset.cons_le_cons (pool.get ⟨seed % pool.length, hlt⟩)
        (ih (lcg seed) (removeAt pool (seed % pool.length)))
      have hco : (↑(pool.get ⟨seed % pool.length, hlt⟩ :: removeAt pool (seed % pool.length))
          : Multiset MediaItem) = ↑pool :=
        Multiset.coe_eq_coe.mpr (get_cons_removeAt_perm pool _ hlt)
      calc (↑(pool.get ⟨seed % pool.length, hlt⟩
              :: random_sample (lcg seed) (removeAt pool (seed % pool.length)) k)
            : Multiset MediaItem)
        ≤ ↑(pool.get ⟨seed % pool.length, hlt⟩ :: removeAt pool (seed % pool.length)) := hstep
      _ = ↑pool := hco

theorem add_run_history_length (hist : List RunRec) (t a : String) (su : Bool) (n : Nat)
    (m : String) (h : hist.length ≤ 100) :
    (add_run_history hist t a su n m).length ≤ 100 := by
  simp only [add_run_history, List.length_append, List.length_cons, List.length_nil]
  split <;> simp_all

/- Trace lemmas about the calls each phase can issue. -/

theorem mem_send_notifications (notif : NotifSettings) (an at_ : String) (cnt : Nat)
    (ts : List String) (a : Call) (h : a ∈ send_notifications notif an at_ cnt ts) :
    isNotifyDispatch a = true ∨ isNotifySend a = true := by
  unfold send_notifications at h
  simp only [List.mem_append] at h
  rcases h with (h | h) | h
  · simp at h
    subst h
    left
    rfl
  · split at h
    · simp at h
      subst h
      right
      rfl
    · simp at h
  · split at h
    · split at h
      · simp at h
        subst h
        right
        rfl
      · simp at h
    · simp at h

theorem send_notifications_countP (notif : NotifSettings) (an at_ : String) (cnt : Nat)
    (ts : List String) (p : Call → Bool)
    (hp1 : ∀ d, p (Call.notifyDispatch d) = false)
    (hp2 : ∀ d, p (Call.discordSend d) = false)
    (hp3 : ∀ ch d, p (Call.notifiarrSend ch d) = false) :
    (send_notifications notif an at_ cnt ts).countP p = 0 := by
  rw [List.countP_eq_zero]
  intro a ha
  rcases mem_send_notifications notif an at_ cnt ts a ha with h | h <;>
    cases a <;> simp_all [isNotifyDispatch, isNotifySend]

theorem search_media_countP (at_ : String) (m : List MediaItem) (p : Call → Bool)
    (hp1 : ∀ cmd f ids, p (Call.searchBatch cmd f ids) = false)
    (hp2 : ∀ cmd f i, p (Call.searchSingle cmd f i) = false) :
    (search_media at_ m).countP p = 0 := by
  rw [List.countP_eq_zero]
  intro a ha
  unfold search_media at ha
  split at ha
  · simp at ha
  · split at ha
    · simp at ha
      subst ha
      simp [hp1]
    · simp at ha
      obtain ⟨x, hx, rfl⟩ := ha
      simp [hp2]

theorem add_media_tag_countP (svc : ServiceState) (at_ : String) (m : List MediaItem)
    (tag : Nat) (p : Call → Bool)
    (hp : ∀ f ids t, p (Call.bulkEdit f ids t "add") = false) :
    ((add_media_tag svc at_ m tag).2).countP p = 0 := by
  unfold add_media_tag
  split <;> simp [List.countP_cons, hp]

theorem remove_media_tag_countP (svc : ServiceState) (at_ : String) (m : List MediaItem)
    (tag : Nat) (p : Call → Bool)
    (hp : ∀ f ids t, p (Call.bulkEdit f ids t "remove") = false) :
    ((remove_media_tag svc at_ m tag).2).countP p = 0 := by
  unfold remove_media_tag
  split <;> simp [List.countP_cons, hp]

theorem remove_media_tag_countP_remove_le (svc : ServiceState) (at_ : String)
    (m : List MediaItem) (tag : Nat) :
    ((remove_media_tag svc at_ m tag).2).countP isRemoveEdit ≤ 1 := by
  unfold remove_media_tag
  split <;> simp [List.countP_cons, isRemoveEdit]

theorem select_and_finish_counts (dry : Bool) (seed : Nat) (now : String) (c : SelectCtx) :
    ((select_and_finish dry seed now c).calls.countP isGetMedia
      = c.calls.countP isGetMedia)
    ∧ ((select_and_finish dry seed now c).calls.countP isRemoveEdit
      = c.calls.countP isRemoveEdit) := by
  unfold select_and_finish
  split
  · exact ⟨rfl, rfl⟩
  · split
    · exact ⟨rfl, rfl⟩
    · simp only [List.countP_append]
      constructor
      · rw [search_media_countP _ _ _ (fun _ _ _ => rfl) (fun _ _ _ => rfl),
          add_media_tag_countP _ _ _ _ _ (fun _ _ _ => rfl),
          send_notifications_countP _ _ _ _ _ _ (fun _ => rfl) (fun _ => rfl) (fun _ _ => rfl)]
        omega
      · rw [search_media_countP _ _ _ (fun _ _ _ => rfl) (fun _ _ _ => rfl),
          add_media_tag_countP _ _ _ _ _ (fun _ _ _ => rfl),
          send_notifications_countP _ _ _ _ _ _ (fun _ => rfl) (fun _ => rfl) (fun _ _ => rfl)]
        omega

theorem get_or_create_tag_countP (svc : ServiceState) (name : String) (p : Call → Bool)
    (hp1 : p Call.getTags = false) (hp2 : ∀ l i, p (Call.createTag l i) = false) :
    ((get_or_create_tag svc name).calls).countP p = 0 := by
  unfold get_or_create_tag get_tag_id create_tag
  cases lookupTagId svc.tags name <;> simp [List.countP_cons, hp1, hp2]

theorem get_quality_profile_id_snd (svc : ServiceState) (at_ name : String) :
    (get_quality_profile_id svc at_ name).2 = [Call.getProfiles] := by
  unfold get_quality_profile_id
  split <;> rfl

theorem phase1_filter_trace (app_name app_type : String) (cfg : AppConfig)
    (notif : NotifSettings) (tag_id : Nat) (ig qp : Option Nat) (svc : ServiceState)
    (calls : List Call) (hist : List RunRec) (now : String)
    (hg : calls.countP isGetMedia = 0) (hr : calls.countP isRemoveEdit = 0)
    (hf : calls.countP isFinishCall = 0) :
    ((phase1ResultCalls
        (phase1_filter app_name app_type cfg notif tag_id ig qp svc calls hist now)).countP
      isGetMedia ≤ 2)
    ∧ ((phase1ResultCalls
        (phase1_filter app_name app_type cfg notif tag_id ig qp svc calls hist now)).countP
      isRemoveEdit ≤ 1)
    ∧ (∀ c, phase1_filter app_name app_type cfg notif tag_id ig qp svc calls hist now = .cont c →
        c.calls.countP isFinishCall = 0 ∧ c.history = hist) := by
  have cMg : (calls ++ [Call.getMedia]).countP isGetMedia = 1 := by
    simp [List.countP_append, List.countP_cons, hg, isGetMedia]
  have cMr : (calls ++ [Call.getMedia]).countP isRemoveEdit = 0 := by
    simp [List.countP_append, List.countP_cons, hr, isRemoveEdit]
  have cMf : (calls ++ [Call.getMedia]).countP isFinishCall = 0 := by
    simp [List.countP_append, List.countP_cons, hf, isFinishCall, isSearchCall, isAddEdit,
      isNotifySend, isNotifyDispatch]
  have sg := send_notifications_countP notif app_name app_type 0 ([] : List String) isGetMedia
    (fun _ => rfl) (fun _ => rfl) (fun _ _ => rfl)
  have sr := send_notifications_countP notif app_name app_type 0 ([] : List String) isRemoveEdit
    (fun _ => rfl) (fun _ => rfl) (fun _ _ => rfl)
  unfold phase1_filter
  cases hb1 : (filter_media svc.media tag_id (run_monitored cfg) (status_for app_type cfg)
      qp ig false).isEmpty with
  | false =>
    simp only [hb1, Bool.false_eq_true, if_false, phase1ResultCalls]
    refine ⟨by omega, by omega, ?_⟩
    intro c hc
    cases hc
    exact ⟨cMf, rfl⟩
  | true =>
    cases hb2 : run_unattended cfg with
    | false =>
      simp only [hb1, hb2, Bool.false_eq_true, if_false, if_true, hb1, finish_empty,
        phase1ResultCalls, List.countP_append]
      refine ⟨?_, ?_, ?_⟩
      · simp [List.countP_append, List.countP_cons, hg, isGetMedia, sg]
      · simp [List.countP_append, List.countP_cons, hr, isRemoveEdit, sr]
      · intro c hc
        simp at hc
    | true =>
      cases hb3 : (filter_media svc.media tag_id (run_monitored cfg) (status_for app_type cfg)
          qp ig true).isEmpty with
      | true =>
        simp only [hb1, hb2, hb3, if_true, finish_empty, phase1ResultCalls, List.countP_append]
        refine ⟨?_, ?_, ?_⟩
        · simp [List.countP_append, List.countP_cons, hg, isGetMedia, sg]
        · simp [List.countP_append, List.countP_cons, hr, isRemoveEdit, sr]
        · intro c hc
          simp at hc
      | false =>
        have rg := remove_media_tag_countP svc app_type
          (filter_media svc.media tag_id (run_monitored cfg) (status_for app_type cfg)
            qp ig true) tag_id isGetMedia (fun _ _ _ => rfl)
        have rr := remove_media_tag_countP_remove_le svc app_type
          (filter_media svc.media tag_id (run_monitored cfg) (status_for app_type cfg)
            qp ig true) tag_id
        have rf := remove_media_tag_countP svc app_type
          (filter_media svc.media tag_id (run_monitored cfg) (status_for app_type cfg)
            qp ig true) tag_id isFinishCall (fun _ _ _ => rfl)
        simp only [hb1, hb2, hb3, Bool.false_eq_true, if_false, if_true]
        cases hb4 : (filter_media (remove_media_tag svc app_type
            (filter_media svc.media tag_id (run_monitored cfg) (status_for app_type cfg)
              qp ig true) tag_id).1.media tag_id (run_monitored cfg)
            (status_for app_type cfg) qp ig false).isEmpty with
        | true =>
          simp only [hb4, if_true, finish_empty, phase1ResultCalls, List.countP_append,
            List.countP_cons]
          refine ⟨?_, ?_, ?_⟩
          · simp [isGetMedia, hg, rg, sg]
          · simp [isRemoveEdit, hr, sr]
            omega
          · intro c hc
            simp at hc
        | false =>
          simp only [hb4, Bool.false_eq_true, if_false, phase1ResultCalls]
          refine ⟨?_, ?_, ?_⟩
          · simp [List.countP_append, List.countP_cons, isGetMedia, hg, rg]
          · simp [List.countP_append, List.countP_cons, isRemoveEdit, hr]
            omega
          · intro c hc
            cases hc
            refine ⟨?_, rfl⟩
            simp [List.countP_append, List.countP_cons, isFinishCall, isSearchCall, isAddEdit,
              isNotifySend, isNotifyDispatch, hf, rf]

theorem phase1_quality_trace (app_name app_type : String) (cfg : AppConfig)
    (notif : NotifSettings) (tag_id : Nat) (ig : Option Nat) (svc : ServiceState)
    (calls : List Call) (hist : List RunRec) (now : String)
    (hg : calls.countP isGetMedia = 0) (hr : calls.countP isRemoveEdit = 0)
    (hf : calls.countP isFinishCall = 0) :
    ((phase1ResultCalls
        (phase1_quality app_name app_type cfg notif tag_id ig svc calls hist now)).countP
      isGetMedia ≤ 2)
    ∧ ((phase1ResultCalls
        (phase1_quality app_name app_type cfg notif tag_id ig svc calls hist now)).countP
      isRemoveEdit ≤ 1)
    ∧ (∀ c, phase1_quality app_name app_type cfg notif tag_id ig svc calls hist now = .cont c →
        c.calls.countP isFinishCall = 0 ∧ c.history = hist) := by
  have cQg : (calls ++ [Call.getProfiles]).countP isGetMedia = 0 := by
    simp [List.countP_append, List.countP_cons, hg, isGetMedia]
  have cQr : (calls ++ [Call.getProfiles]).countP isRemoveEdit = 0 := by
    simp [List.countP_append, List.countP_cons, hr, isRemoveEdit]
  have cQf : (calls ++ [Call.getProfiles]).countP isFinishCall = 0 := by
    simp [List.countP_append, List.countP_cons, hf, isFinishCall, isSearchCall, isAddEdit,
      isNotifySend, isNotifyDispatch]
  unfold phase1_quality
  cases hq : pyTruthy cfg.QualityProfileName with
  | false =>
    simp only [hq, Bool.false_eq_true, if_false]
    exact phase1_filter_trace app_name app_type cfg notif tag_id ig none svc calls hist now
      hg hr hf
  | true =>
    simp only [hq, if_true]
    rcases hgq : get_quality_profile_id svc app_type (cfg.QualityProfileName.getD "") with
      ⟨res, callsQ⟩
    have hcq : callsQ = [Call.getProfiles] := by
      have h2 := congrArg Prod.snd hgq
      rw [get_quality_profile_id_snd] at h2
      exact h2.symm
    subst hcq
    cases res with
    | ok q =>
      exact phase1_filter_trace app_name app_type cfg notif tag_id ig (some q) svc
        (calls ++ [Call.getProfiles]) hist now cQg cQr cQf
    | error e =>
      simp only [phase1ResultCalls]
      refine ⟨by omega, by omega, ?_⟩
      intro c hc
      simp at hc

theorem phase1_trace (app_name : String) (cfg : AppConfig) (notif : NotifSettings)
    (svc : ServiceState) (hist : List RunRec) (now : String) :
    ((phase1ResultCalls (phase1 app_name cfg notif svc hist now)).countP isGetMedia ≤ 2)
    ∧ ((phase1ResultCalls (phase1 app_name cfg notif svc hist now)).countP isRemoveEdit ≤ 1)
    ∧ (∀ c, phase1 app_name cfg notif svc hist now = .cont c →
        c.calls.countP isFinishCall = 0 ∧ c.history = hist) := by
  unfold phase1
  cases hv : (validate_application_config app_name cfg).isEmpty with
  | false =>
    simp only [hv, Bool.false_eq_true, if_false, phase1ResultCalls]
    refine ⟨by simp, by simp, ?_⟩
    intro c hc
    simp at hc
  | true =>
    simp only [hv, if_true]
    cases hd : determine_app_type app_name with
    | none =>
      simp only [phase1ResultCalls]
      refine ⟨by simp, by simp, ?_⟩
      intro c hc
      simp at hc
    | some app_type =>
      have tg := get_or_create_tag_countP svc (cfg.TagName.getD "") isGetMedia rfl
        (fun _ _ => rfl)
      have tr := get_or_create_tag_countP svc (cfg.TagName.getD "") isRemoveEdit rfl
        (fun _ _ => rfl)
      have tf := get_or_create_tag_countP svc (cfg.TagName.getD "") isFinishCall rfl
        (fun _ _ => rfl)
      have c1g : (([Call.getApiVersion] ++ (get_or_create_tag svc
          (cfg.TagName.getD "")).calls)).countP isGetMedia = 0 := by
        simp [List.countP_append, List.countP_cons, tg, isGetMedia]
      have c1r : (([Call.getApiVersion] ++ (get_or_create_tag svc
          (cfg.TagName.getD "")).calls)).countP isRemoveEdit = 0 := by
        simp [List.countP_append, List.countP_cons, tr, isRemoveEdit]
      have c1f : (([Call.getApiVersion] ++ (get_or_create_tag svc
          (cfg.TagName.getD "")).calls)).countP isFinishCall = 0 := by
        simp [List.countP_append, List.countP_cons, tf, isFinishCall, isSearchCall, isAddEdit,
          isNotifySend, isNotifyDispatch]
      have c2g : (([Call.getApiVersion] ++ (get_or_create_tag svc
          (cfg.TagName.getD "")).calls) ++ [Call.getTags]).countP isGetMedia = 0 := by
        simp [List.countP_append, List.countP_cons, tg, isGetMedia]
      have c2r : (([Call.getApiVersion] ++ (get_or_create_tag svc
          (cfg.TagName.getD "")).calls) ++ [Call.getTags]).countP isRemoveEdit = 0 := by
        simp [List.countP_append, List.countP_cons, tr, isRemoveEdit]
      have c2f : (([Call.getApiVersion] ++ (get_or_create_tag svc
          (cfg.TagName.getD "")).calls) ++ [Call.getTags]).countP isFinishCall = 0 := by
        simp [List.countP_append, List.countP_cons, tf, isFinishCall, isSearchCall, isAddEdit,
          isNotifySend, isNotifyDispatch]
      cases hi : pyTruthy cfg.IgnoreTag with
      | false =>
        simp only [hd, hi, Bool.false_eq_true, if_false]
        exact phase1_quality_trace app_name app_type cfg notif
          (get_or_create_tag svc (cfg.TagName.getD "")).id none
          (get_or_create_tag svc (cfg.TagName.getD "")).svc _ hist now c1g c1r c1f
      | true =>
        simp only [hd, hi, if_true, get_tag_id]
        cases hcoll : (lookupTagId (get_or_create_tag svc (cfg.TagName.getD "")).svc.tags
            (cfg.IgnoreTag.getD "") == some (get_or_create_tag svc (cfg.TagName.getD "")).id)
            with
        | true =>
          simp only [hcoll, if_true, phase1ResultCalls]
          refine ⟨by omega, by omega, ?_⟩
          intro c hc
          simp at hc
        | false =>
          simp only [hcoll, Bool.false_eq_true, if_false]
          exact phase1_quality_trace app_name app_type cfg notif
            (get_or_create_tag svc (cfg.TagName.getD "")).id _
            (get_or_create_tag svc (cfg.TagName.getD "")).svc _ hist now c2g c2r c2f

theorem mem_get_or_create_tag (svc : ServiceState) (name : String) (a : Call)
    (h : a ∈ (get_or_create_tag svc name).calls) :
    a = Call.getTags ∨ isCreateTag a = true := by
  unfold get_or_create_tag get_tag_id create_tag at h
  rcases hl : lookupTagId svc.tags name with _ | id <;> rw [hl] at h <;> simp at h
  · rcases h with h | h
    · exact Or.inl h
    · subst h
      exact Or.inr rfl
  · exact Or.inl h

theorem run_application_counts (app_name : String) (cfg : AppConfig) (notif : NotifSettings)
    (dry : Bool) (seed : Nat) (svc : ServiceState) (hist : List RunRec) (now : String) :
    ((run_application app_name cfg notif dry seed svc hist now).calls.countP isGetMedia ≤ 2)
    ∧ ((run_application app_name cfg notif dry seed svc hist now).calls.countP
        isRemoveEdit ≤ 1) := by
  obtain ⟨h1, h2, _⟩ := phase1_trace app_name cfg notif svc hist now
  unfold run_application
  cases hph : phase1 app_name cfg notif svc hist now with
  | exit o =>
    rw [hph] at h1 h2
    exact ⟨h1, h2⟩
  | cont c =>
    rw [hph] at h1 h2
    simp only [phase1ResultCalls] at h1 h2
    obtain ⟨s1, s2⟩ := select_and_finish_counts dry seed now c
    exact ⟨by rw [s1]; exact h1, by rw [s2]; exact h2⟩

/- Claim theorems. -/

/-- C1: for every media list, tag id, and fixed values of the other filter
    arguments, every item the normal-mode filter returns lacks the tag id
    and every item the unattended-probe-mode filter returns carries it. -/
theorem filter_media_tag_partition_c1
    (media : List MediaItem) (tag_id : Nat) (monitored : Bool) (status : Option String)
    (quality_profile_id : Option Nat) (ignore_tag_id : Option Nat) :
    (∀ x ∈ filter_media media tag_id monitored status quality_profile_id ignore_tag_id false,
      tag_id ∉ x.tags)
    ∧ (∀ x ∈ filter_media media tag_id monitored status quality_profile_id ignore_tag_id true,
      tag_id ∈ x.tags) := by
  constructor
  · intro x hx
    have h := (List.mem_filter.mp hx).2
    simp [filter_pred] at h
    tauto
  · intro x hx
    have h := (List.mem_filter.mp hx).2
    simp [filter_pred] at h
    tauto

/-- Witness for C1 at a concrete media list. -/
theorem filter_media_tag_partition_c1_witness : (0 : Nat) ∉ mItem1.tags :=
  (filter_media_tag_partition_c1 [mItem1] 0 true none none none).1 mItem1 (by decide)

/-- C4: with a count literal max (case-insensitively) SELECT returns the
    whole filtered list unchanged; with a positive integer count n it
    returns a sample of exactly min(n, length) items drawn without
    replacement from the filtered list. -/
theorem select_media_bound_c4 (count_str : String) (filtered : List MediaItem) (seed : Nat) :
    (pyLower count_str = "max" → select_media count_str filtered seed = .ok filtered)
    ∧ (∀ n : Int, pyLower count_str ≠ "max" → pyInt? count_str = some n → 1 ≤ n →
        select_media count_str filtered seed =
          .ok (random_sample seed filtered (min n.toNat filtered.length))
        ∧ (random_sample seed filtered (min n.toNat filtered.length)).length
            = min n.toNat filtered.length
        ∧ (↑(random_sample seed filtered (min n.toNat filtered.length))
            : Multiset MediaItem) ≤ ↑filtered) := by
  constructor
  · intro h
    simp [select_media, h]
  · intro n hmax hparse hpos
    have hbeq : (pyLower count_str == "max") = false := by
      simpa using hmax
    have hneg : ¬(n < 0) := by omega
    refine ⟨?_, ?_, random_sample_subset _ _ _⟩
    · simp [select_media, hbeq, hparse, hneg]
    · rw [random_sample_length]
      omega

/-- Witness for C4: count 2 over a three-item filtered list yields
    exactly two items. -/
theorem select_media_bound_c4_witness :
    select_media "2" [mItem1, mItem2, mItem3] 7 =
      .ok (random_sample 7 [mItem1, mItem2, mItem3] (min (2 : Int).toNat 3))
    ∧ (random_sample 7 [mItem1, mItem2, mItem3] (min (2 : Int).toNat 3)).length
        = min (2 : Int).toNat 3
    ∧ (↑(random_sample 7 [mItem1, mItem2, mItem3] (min (2 : Int).toNat 3))
        : Multiset MediaItem) ≤ ↑[mItem1, mItem2, mItem3] := by
  have h := (select_media_bound_c4 "2" [mItem1, mItem2, mItem3] 7).2 2
    (by decide) (by decide) (by decide)
  simpa using h

set_option maxRecDepth 40000 in
/-- C5: starting from any history within the bound, any sequence of
    add_run_history calls keeps at most 100 records; get_run_history with a
    positive limit returns the most recent records first capped at that
    limit; and after appending 105 records to an empty history,
    get_run_history with limit 1000 returns exactly the final 100 records,
    most recent first. -/
theorem run_history_bounded_c5 :
    (∀ (h0 : List RunRec) (adds : List RunRec), h0.length ≤ 100 →
      (adds.foldl (fun h r =>
        add_run_history h r.timestamp r.application r.success r.searched_count r.message)
        h0).length ≤ 100)
    ∧ (∀ (h : List RunRec) (limit : Nat), 0 < limit →
        get_run_history h limit = (h.reverse).take limit)
    ∧ get_run_history
        ((List.range 105).foldl (fun h i => add_run_history h "" "run" true i "") [])
        1000
      = (((List.range 105).drop 5).reverse).map
          (fun i => (⟨"", "run", true, i, ""⟩ : RunRec)) := by
  refine ⟨?_, ?_, ?_⟩
  · intro h0 adds
    induction adds generalizing h0 with
    | nil => intro h; simpa using h
    | cons r rest ih =>
      intro h
      simpa using ih _ (add_run_history_length h0 _ _ _ _ _ h)
  · intro h limit hpos
    have hz : ¬(limit = 0) := by omega
    simp only [get_run_history, pySliceLast, if_neg hz]
    rw [List.reverse_drop]
    by_cases hle : limit ≤ h.length
    · congr 1
      omega
    · have h1 : h.length - (h.length - limit) = h.length := by omega
      rw [h1, List.take_of_length_le (by simp), List.take_of_length_le (by simp; omega)]
  · decide

/-- Witness for C5 at a single append to the empty history. -/
theorem run_history_bounded_c5_witness :
    ([(⟨"", "run", true, 1, ""⟩ : RunRec)].foldl (fun h r =>
      add_run_history h r.timestamp r.application r.success r.searched_count r.message)
      []).length ≤ 100 :=
  run_history_bounded_c5.1 [] [⟨"", "run", true, 1, ""⟩] (by decide)

/-- C6: on a non-empty selected list the movie kind issues exactly one
    batched search command carrying every id, while the series, artist and
    author kinds issue exactly one command per item, in list order, each
    carrying that item's single id. -/
theorem search_media_batching_c6 (media : List MediaItem) (h : media ≠ []) :
    search_media "radarr" media =
      [Call.searchBatch "MoviesSearch" "movieIds" (media.map fun m => m.id)]
    ∧ search_media "sonarr" media =
        media.map (fun item => Call.searchSingle "SeriesSearch" "seriesId" item.id)
    ∧ search_media "lidarr" media =
        media.map (fun item => Call.searchSingle "ArtistSearch" "artistId" item.id)
    ∧ search_media "readarr" media =
        media.map (fun item => Call.searchSingle "AuthorSearch" "authorId" item.id) := by
  have hne : media.isEmpty = false := by
    cases media
    · exact absurd rfl h
    · rfl
  refine ⟨?_, ?_, ?_, ?_⟩ <;>
    simp [search_media, hne, get_search_command_name, get_search_id_field]

/-- Witness for C6 at a one-item list. -/
theorem search_media_batching_c6_witness :
    search_media "radarr" [mItem1] = [Call.searchBatch "MoviesSearch" "movieIds" [1]]
    ∧ search_media "sonarr" [mItem1] = [Call.searchSingle "SeriesSearch" "seriesId" 1] := by
  have h := search_media_batching_c6 [mItem1] (by decide)
  exact ⟨h.1, h.2.1⟩

/-- Fold invariant of run_all_applications: the accumulated results extend
    by one entry per non-reserved section, and the accumulated total by the
    searched count of each successful run. -/
theorem run_all_go (runOne : String → Except RunError AppRunResult) :
    ∀ (sections : List String) (acc : AllOutcome),
      (sections.foldl (run_all_step runOne) acc).results
        = acc.results ++ (sections.filter (fun s => !(excluded_sections.contains s))).map
            (fun s => match runOne s with
              | .ok r => SectionResult.ok s r.searched_count r.items
              | .error (.valueError m) => SectionResult.failed s m)
      ∧ (sections.foldl (run_all_step runOne) acc).total_searched
        = acc.total_searched
          + ((sections.filter (fun s => !(excluded_sections.contains s))).map
              (fun s => match runOne s with
                | .ok r => r.searched_count
                | .error _ => 0)).sum := by
  intro sections
  induction sections with
  | nil => intro acc; simp
  | cons s rest ih =>
    intro acc
    rw [List.foldl_cons]
    by_cases hs : s ∈ excluded_sections
    · have hstep : run_all_step runOne acc s = acc := by
        simp [run_all_step, hs]
      have hfilt : List.filter (fun x => !(excluded_sections.contains x)) (s :: rest)
          = List.filter (fun x => !(excluded_sections.contains x)) rest := by
        simp [List.filter_cons, hs]
      rw [hstep, hfilt]
      exact ih acc
    · cases hr : runOne s with
      | ok r =>
        have hstep : run_all_step runOne acc s =
            ⟨acc.total_searched + r.searched_count,
             acc.results ++ [SectionResult.ok s r.searched_count r.items],
             acc.items ++ r.items⟩ := by
          simp [run_all_step, hs, hr]
        rw [hstep]
        obtain ⟨ih1, ih2⟩ := ih ⟨acc.total_searched + r.searched_count,
          acc.results ++ [SectionResult.ok s r.searched_count r.items], acc.items ++ r.items⟩
        constructor
        · rw [ih1]
          simp [List.filter_cons, hs, hr]
        · rw [ih2]
          simp [List.filter_cons, hs, hr]
          omega
      | error e =>
        cases e with
        | valueError m =>
          have hstep : run_all_step runOne acc s =
              ⟨acc.total_searched, acc.results ++ [SectionResult.failed s m], acc.items⟩ := by
            simp [run_all_step, hs, hr]
          rw [hstep]
          obtain ⟨ih1, ih2⟩ := ih ⟨acc.total_searched,
            acc.results ++ [SectionResult.failed s m], acc.items⟩
          constructor
          · rw [ih1]
            simp [List.filter_cons, hs, hr]
          · rw [ih2]
            simp [List.filter_cons, hs, hr]

/-- C9: run_all_applications visits every section except the three reserved
    ones, in order, records a failure entry for an application whose run
    raises while still running the remaining applications, and sums
    searched counts over the successful applications only. -/
theorem run_all_isolation_c9 (sections : List String)
    (runOne : String → Except RunError AppRunResult) :
    (run_all_applications sections runOne).results
      = (sections.filter (fun s => !(excluded_sections.contains s))).map
          (fun s => match runOne s with
            | .ok r => SectionResult.ok s r.searched_count r.items
            | .error (.valueError m) => SectionResult.failed s m)
    ∧ (run_all_applications sections runOne).total_searched
      = ((sections.filter (fun s => !(excluded_sections.contains s))).map
          (fun s => match runOne s with
            | .ok r => r.searched_count
            | .error _ => 0)).sum := by
  have h := run_all_go runOne sections ⟨0, [], []⟩
  simpa [run_all_applications] using h

/-- C10: get_run_history with limit 0 returns every retained record, most
    recent first, because the slice with a zero limit selects the whole
    list. -/
theorem get_run_history_zero_c10 (h : List RunRec) :
    pySliceLast h 0 = h ∧ get_run_history h 0 = h.reverse := by
  constructor <;> simp [pySliceLast, get_run_history]

/-- C3: when the normal-mode filter over the fetched media is empty and
    unattended mode is on, the run probes the same fetched media with the
    unattended filter; an empty probe leads straight to the zero-count
    return (success record, notifications, searched_count 0, no items,
    no error); a non-empty probe issues exactly one bulk removal of the
    processed tag from exactly the probed items, re-fetches media, re-runs
    the normal-mode filter once and either returns the zero-count result or
    continues to SELECT with that second filter result; moreover a run
    exiting before SELECT returns the phase-1 outcome unchanged, and every
    run whatsoever fetches media at most twice and issues at most one
    bulk tag removal, so the retry can never loop. -/
theorem run_unattended_retry_c3 :
    (∀ (app_name app_type : String) (cfg : AppConfig) (notif : NotifSettings)
       (tag_id : Nat) (ig qp : Option Nat) (svc : ServiceState) (calls : List Call)
       (hist : List RunRec) (now : String),
      run_unattended cfg = true →
      filter_media svc.media tag_id (run_monitored cfg) (status_for app_type cfg) qp ig false
        = [] →
      ((filter_media svc.media tag_id (run_monitored cfg) (status_for app_type cfg) qp ig true
          = [] →
        phase1_filter app_name app_type cfg notif tag_id ig qp svc calls hist now =
          .exit ⟨.ok ⟨0, []⟩, svc,
            calls ++ [Call.getMedia] ++ send_notifications notif app_name app_type 0 [],
            add_run_history hist now app_name true 0 (no_media_msg app_name)⟩)
      ∧ (∀ probe svcR callsRem,
          probe = filter_media svc.media tag_id (run_monitored cfg) (status_for app_type cfg)
            qp ig true →
          probe ≠ [] →
          remove_media_tag svc app_type probe tag_id = (svcR, callsRem) →
          callsRem = [Call.bulkEdit (get_media_id_field app_type)
              (probe.map (fun m => m.id)) tag_id "remove"]
          ∧ (filter_media svcR.media tag_id (run_monitored cfg) (status_for app_type cfg)
                qp ig false = [] →
              phase1_filter app_name app_type cfg notif tag_id ig qp svc calls hist now =
                .exit ⟨.ok ⟨0, []⟩, svcR,
                  calls ++ [Call.getMedia] ++ callsRem ++ [Call.getMedia]
                    ++ send_notifications notif app_name app_type 0 [],
                  add_run_history hist now app_name true 0 (no_media_msg app_name)⟩)
          ∧ (filter_media svcR.media tag_id (run_monitored cfg) (status_for app_type cfg)
                qp ig false ≠ [] →
              phase1_filter app_name app_type cfg notif tag_id ig qp svc calls hist now =
                .cont ⟨app_name, app_type, cfg, notif, tag_id,
                  filter_media svcR.media tag_id (run_monitored cfg)
                    (status_for app_type cfg) qp ig false,
                  svcR, calls ++ [Call.getMedia] ++ callsRem ++ [Call.getMedia], hist⟩))))
    ∧ (∀ (app_name : String) (cfg : AppConfig) (notif : NotifSettings) (dry : Bool)
         (seed : Nat) (svc : ServiceState) (hist : List RunRec) (now : String)
         (o : RunOutcome),
        phase1 app_name cfg notif svc hist now = .exit o →
        run_application app_name cfg notif dry seed svc hist now = o)
    ∧ (∀ (app_name : String) (cfg : AppConfig) (notif : NotifSettings) (dry : Bool)
         (seed : Nat) (svc : ServiceState) (hist : List RunRec) (now : String),
        ((run_application app_name cfg notif dry seed svc hist now).calls.countP
          isGetMedia ≤ 2)
        ∧ ((run_application app_name cfg notif dry seed svc hist now).calls.countP
          isRemoveEdit ≤ 1)) := by
  refine ⟨?_, ?_, ?_⟩
  · intro app_name app_type cfg notif tag_id ig qp svc calls hist now hU hEmpty
    have hE1 : (filter_media svc.media tag_id (run_monitored cfg) (status_for app_type cfg)
        qp ig false).isEmpty = true := by
      rw [hEmpty]
      rfl
    constructor
    · intro hProbe
      have hE2 : (filter_media svc.media tag_id (run_monitored cfg) (status_for app_type cfg)
          qp ig true).isEmpty = true := by
        rw [hProbe]
        rfl
      simp only [phase1_filter, hE1, hU, hE2, if_true, finish_empty]
    · intro probe svcR callsRem hprobe hne hrm
      subst hprobe
      have hE2 : (filter_media svc.media tag_id (run_monitored cfg) (status_for app_type cfg)
          qp ig true).isEmpty = false := by
        cases hcons : filter_media svc.media tag_id (run_monitored cfg)
            (status_for app_type cfg) qp ig true with
        | nil => exact absurd hcons hne
        | cons x xs => rfl
      have hcallsRem : callsRem = [Call.bulkEdit (get_media_id_field app_type)
          ((filter_media svc.media tag_id (run_monitored cfg) (status_for app_type cfg)
            qp ig true).map (fun m => m.id)) tag_id "remove"] := by
        have hsnd : (remove_media_tag svc app_type (filter_media svc.media tag_id
            (run_monitored cfg) (status_for app_type cfg) qp ig true) tag_id).2 = callsRem :=
          congrArg Prod.snd hrm
        rw [← hsnd]
        unfold remove_media_tag
        rw [if_neg (by rw [hE2]; exact Bool.false_ne_true)]
      refine ⟨hcallsRem, ?_, ?_⟩
      · intro hf2
        have hE4 : (filter_media svcR.media tag_id (run_monitored cfg)
            (status_for app_type cfg) qp ig false).isEmpty = true := by
          rw [hf2]
          rfl
        simp only [phase1_filter, hE1, hU, hE2, hrm, Bool.false_eq_true, if_false, if_true,
          hE4, finish_empty]
      · intro hf2
        have hE4 : (filter_media svcR.media tag_id (run_monitored cfg)
            (status_for app_type cfg) qp ig false).isEmpty = false := by
          cases hcons : filter_media svcR.media tag_id (run_monitored cfg)
              (status_for app_type cfg) qp ig false with
          | nil => exact absurd hcons hf2
          | cons x xs => rfl
        simp only [phase1_filter, hE1, hU, hE2, hrm, Bool.false_eq_true, if_false, if_true,
          hE4]
  · intro app_name cfg notif dry seed svc hist now o hph
    unfold run_application
    rw [hph]
  · intro app_name cfg notif dry seed svc hist now
    exact run_application_counts app_name cfg notif dry seed svc hist now

/-- C7 counterexample: a dry run that reaches SELECT (it returns a
    selected count of 1) whose trace contains the tag-creation mutation, so
    a run-history record is not its only side effect. -/
theorem run_dry_run_c7_counterexample :
    ((run_application "radarr" cfgNew ⟨none, none⟩ true 0 ⟨[], 0, [], [mItem1]⟩ [] "t").result
      = .ok ⟨1, ["A"]⟩)
    ∧ Call.createTag "proc" 0 ∈
        (run_application "radarr" cfgNew ⟨none, none⟩ true 0 ⟨[], 0, [], [mItem1]⟩ [] "t").calls
    ∧ isMutatingCall (Call.createTag "proc" 0) = true := by
  refine ⟨by decide, by decide, rfl⟩

/-- C7 amended: a run that reaches the SELECT step returns, under dry run,
    the same result (selected count and titles) the real run returns; the
    dry run issues no call beyond the shared pre-SELECT phase — in
    particular no search, no tag addition and no notification activity,
    since the pre-SELECT trace contains none — and its only new effect is
    the run-history record annotated as a dry run; the shared pre-SELECT
    phase may itself mutate (tag creation, unattended tag removal), and the
    real run appends the search, tag-addition and notification calls. -/
theorem run_dry_run_c7 (app_name : String) (cfg : AppConfig) (notif : NotifSettings)
    (seed : Nat) (svc : ServiceState) (hist : List RunRec) (now : String) (c : SelectCtx)
    (sel : List MediaItem)
    (h : phase1 app_name cfg notif svc hist now = .cont c)
    (hsel : select_media (c.cfg.Count.getD "10") c.filtered seed = .ok sel) :
    run_application app_name cfg notif true seed svc hist now =
      ⟨.ok ⟨sel.length, sel.map (media_title c.app_type)⟩, c.svc, c.calls,
       add_run_history c.history now c.app_name true sel.length
         ("[DRY RUN] " ++ (s!"Dry run: would search {sel.length} items in " ++ c.app_name))⟩
    ∧ run_application app_name cfg notif false seed svc hist now =
      ⟨.ok ⟨sel.length, sel.map (media_title c.app_type)⟩,
       (add_media_tag c.svc c.app_type sel c.tag_id).1,
       c.calls ++ search_media c.app_type sel
         ++ (add_media_tag c.svc c.app_type sel c.tag_id).2
         ++ send_notifications c.notif c.app_name c.app_type sel.length
             (sel.map (media_title c.app_type)),
       add_run_history c.history now c.app_name true sel.length
         (s!"Searched {sel.length} items in " ++ c.app_name)⟩
    ∧ c.calls.countP isFinishCall = 0
    ∧ c.history = hist := by
  obtain ⟨_, _, h3⟩ := phase1_trace app_name cfg notif svc hist now
  obtain ⟨hc1, hc2⟩ := h3 c h
  have e0 : ∀ dry, run_application app_name cfg notif dry seed svc hist now
      = select_and_finish dry seed now c := by
    intro dry
    unfold run_application
    rw [h]
  refine ⟨?_, ?_, hc1, hc2⟩
  · rw [e0 true]
    unfold select_and_finish
    rw [hsel]
    rfl
  · rw [e0 false]
    unfold select_and_finish
    rw [hsel]
    rfl

/-- Witness for C7 at a concrete run reaching SELECT. -/
theorem run_dry_run_c7_witness :
    run_application "radarr" cfgNew ⟨none, none⟩ true 0 svcTagged [] "t" =
      ⟨.ok ⟨sel7.length, sel7.map (media_title ctx7.app_type)⟩, ctx7.svc, ctx7.calls,
       add_run_history ctx7.history "t" ctx7.app_name true sel7.length
         ("[DRY RUN] " ++ (s!"Dry run: would search {sel7.length} items in "
           ++ ctx7.app_name))⟩ :=
  (run_dry_run_c7 "radarr" cfgNew ⟨none, none⟩ 0 svcTagged [] "t" ctx7 sel7
    (by decide) (by decide)).1

/-- C2 counterexample: with a fresh tag name whose IgnoreTag differs only
    in case, the run does fail with the collision ValueError, but a tag
    creation — a network mutation — has already been issued before the
    failure, refuting the no-mutation-at-all part of the claim. -/
theorem run_tag_collision_c2_counterexample :
    ((run_application "radarr" cfgCol ⟨none, none⟩ false 0 ⟨[], 0, [], [mItem1]⟩ [] "t").result
      = .error (.valueError (collision_msg "keep")))
    ∧ Call.createTag "keep" 0 ∈
        (run_application "radarr" cfgCol ⟨none, none⟩ false 0 ⟨[], 0, [], [mItem1]⟩ [] "t").calls
    ∧ isMutatingCall (Call.createTag "keep" 0) = true := by
  refine ⟨by decide, by decide, rfl⟩

/-- C2 amended: when TagName and IgnoreTag resolve to the same tag id the
    run fails with the collision ValueError, and the only network mutation
    that can have been issued before the failure is the creation of the
    processed tag itself (when it did not yet exist); in particular no bulk
    tag edit, no search command and no notification send happens. -/
theorem run_tag_collision_c2 (app_name app_type : String) (cfg : AppConfig)
    (notif : NotifSettings) (dry : Bool) (seed : Nat) (svc : ServiceState)
    (hist : List RunRec) (now : String)
    (hv : validate_application_config app_name cfg = [])
    (hd : determine_app_type app_name = some app_type)
    (hi : pyTruthy cfg.IgnoreTag = true)
    (hcol : lookupTagId (get_or_create_tag svc (cfg.TagName.getD "")).svc.tags
        (cfg.IgnoreTag.getD "") = some (get_or_create_tag svc (cfg.TagName.getD "")).id) :
    (run_application app_name cfg notif dry seed svc hist now).result
      = .error (.valueError (collision_msg (cfg.TagName.getD "")))
    ∧ (∀ a ∈ (run_application app_name cfg notif dry seed svc hist now).calls,
        isMutatingCall a = true → isCreateTag a = true) := by
  have hv' : (validate_application_config app_name cfg).isEmpty = true := by
    rw [hv]
    rfl
  have hbeq : (lookupTagId (get_or_create_tag svc (cfg.TagName.getD "")).svc.tags
      (cfg.IgnoreTag.getD "") == some (get_or_create_tag svc (cfg.TagName.getD "")).id)
      = true := by
    rw [hcol]
    simp
  have hrun : run_application app_name cfg notif dry seed svc hist now =
      ⟨.error (.valueError (collision_msg (cfg.TagName.getD ""))),
       (get_or_create_tag svc (cfg.TagName.getD "")).svc,
       [Call.getApiVersion] ++ (get_or_create_tag svc (cfg.TagName.getD "")).calls
         ++ [Call.getTags], hist⟩ := by
    unfold run_application phase1
    simp only [hv', if_true, hd, hi, get_tag_id, hbeq]
  rw [hrun]
  refine ⟨rfl, ?_⟩
  intro a ha hm
  simp only [List.mem_append, List.mem_singleton] at ha
  rcases ha with (ha | ha) | ha
  · subst ha
    simp [isMutatingCall] at hm
  · rcases mem_get_or_create_tag _ _ _ ha with h1 | h1
    · subst h1
      simp [isMutatingCall] at hm
    · exact h1
  · subst ha
    simp [isMutatingCall] at hm

/-- Witness for C2 at a concrete collision over an existing tag. -/
theorem run_tag_collision_c2_witness :
    (run_application "radarr" cfgCol ⟨none, none⟩ false 0 svcKeep [] "t").result
      = .error (.valueError (collision_msg (cfgCol.TagName.getD ""))) :=
  (run_tag_collision_c2 "radarr" "radarr" cfgCol ⟨none, none⟩ false 0 svcKeep [] "t"
    (by decide) (by decide) (by decide) (by decide)).1

/-- C8 counterexample: the tag-collision ConfigurationError aborts the run,
    but the run history is left unchanged — no failed RunRecord is added,
    refuting the recorded-as-failed part of the claim. -/
theorem run_config_errors_c8_counterexample :
    ((run_application "radarr" cfgCol ⟨none, none⟩ false 0 svcKeep [] "t").result
      = .error (.valueError (collision_msg "keep")))
    ∧ (run_application "radarr" cfgCol ⟨none, none⟩ false 0 svcKeep [] "t").history = [] := by
  refine ⟨by decide, by decide⟩

/-- C8 amended: a validation failure (bad API key length, malformed URL,
    unresolvable service kind) is raised before any remote call and is
    recorded as a failed RunRecord; the tag-collision and missing-profile
    ConfigurationErrors are raised before any search or bulk tag edit, but
    abort the run without adding any run-history record. -/
theorem run_config_errors_c8 :
    (∀ (app_name : String) (cfg : AppConfig) (notif : NotifSettings) (dry : Bool)
       (seed : Nat) (svc : ServiceState) (hist : List RunRec) (now : String),
      validate_application_config app_name cfg ≠ [] →
      run_application app_name cfg notif dry seed svc hist now =
        ⟨.error (.valueError (config_errors_msg app_name
            (validate_application_config app_name cfg))), svc, [],
         add_run_history hist now app_name false 0
           (config_errors_msg app_name (validate_application_config app_name cfg))⟩)
    ∧ (∀ (app_name app_type : String) (cfg : AppConfig) (notif : NotifSettings) (dry : Bool)
         (seed : Nat) (svc : ServiceState) (hist : List RunRec) (now : String),
        validate_application_config app_name cfg = [] →
        determine_app_type app_name = some app_type →
        pyTruthy cfg.IgnoreTag = true →
        lookupTagId (get_or_create_tag svc (cfg.TagName.getD "")).svc.tags
            (cfg.IgnoreTag.getD "") = some (get_or_create_tag svc (cfg.TagName.getD "")).id →
        (run_application app_name cfg notif dry seed svc hist now).result
            = .error (.valueError (collision_msg (cfg.TagName.getD "")))
        ∧ (run_application app_name cfg notif dry seed svc hist now).history = hist
        ∧ (run_application app_name cfg notif dry seed svc hist now).calls.countP
            isSearchCall = 0
        ∧ (run_application app_name cfg notif dry seed svc hist now).calls.countP
            isAddEdit = 0
        ∧ (run_application app_name cfg notif dry seed svc hist now).calls.countP
            isRemoveEdit = 0)
    ∧ (∀ (app_name app_type : String) (cfg : AppConfig) (notif : NotifSettings) (dry : Bool)
         (seed : Nat) (svc : ServiceState) (hist : List RunRec) (now : String),
        validate_application_config app_name cfg = [] →
        determine_app_type app_name = some app_type →
        pyTruthy cfg.IgnoreTag = false →
        pyTruthy cfg.QualityProfileName = true →
        (get_or_create_tag svc (cfg.TagName.getD "")).svc.profiles.find?
            (fun p => pyLower p.name == pyLower (cfg.QualityProfileName.getD "")) = none →
        (run_application app_name cfg notif dry seed svc hist now).result
            = .error (.valueError
                (profile_missing_msg (cfg.QualityProfileName.getD "") app_type))
        ∧ (run_application app_name cfg notif dry seed svc hist now).history = hist
        ∧ (run_application app_name cfg notif dry seed svc hist now).calls.countP
            isSearchCall = 0
        ∧ (run_application app_name cfg notif dry seed svc hist now).calls.countP
            isAddEdit = 0
        ∧ (run_application app_name cfg notif dry seed svc hist now).calls.countP
            isRemoveEdit = 0) := by
  refine ⟨?_, ?_, ?_⟩
  · intro app_name cfg notif dry seed svc hist now hv
    have hv' : (validate_application_config app_name cfg).isEmpty = false := by
      cases hval : validate_application_config app_name cfg with
      | nil => exact absurd hval hv
      | cons e es => rfl
    unfold run_application phase1
    simp only [hv', Bool.false_eq_true, if_false]
  · intro app_name app_type cfg notif dry seed svc hist now hv hd hi hcol
    have hv' : (validate_application_config app_name cfg).isEmpty = true := by
      rw [hv]
      rfl
    have hbeq : (lookupTagId (get_or_create_tag svc (cfg.TagName.getD "")).svc.tags
        (cfg.IgnoreTag.getD "") == some (get_or_create_tag svc (cfg.TagName.getD "")).id)
        = true := by
      rw [hcol]
      simp
    have hrun : run_application app_name cfg notif dry seed svc hist now =
        ⟨.error (.valueError (collision_msg (cfg.TagName.getD ""))),
         (get_or_create_tag svc (cfg.TagName.getD "")).svc,
         [Call.getApiVersion] ++ (get_or_create_tag svc (cfg.TagName.getD "")).calls
           ++ [Call.getTags], hist⟩ := by
      unfold run_application phase1
      simp only [hv', if_true, hd, hi, get_tag_id, hbeq]
    rw [hrun]
    have t1 := get_or_create_tag_countP svc (cfg.TagName.getD "") isSearchCall rfl
      (fun _ _ => rfl)
    have t2 := get_or_create_tag_countP svc (cfg.TagName.getD "") isAddEdit rfl
      (fun _ _ => rfl)
    have t3 := get_or_create_tag_countP svc (cfg.TagName.getD "") isRemoveEdit rfl
      (fun _ _ => rfl)
    refine ⟨rfl, rfl, ?_, ?_, ?_⟩
    · rw [List.countP_append, List.countP_append, t1]
      decide
    · rw [List.countP_append, List.countP_append, t2]
      decide
    · rw [List.countP_append, List.countP_append, t3]
      decide
  · intro app_name app_type cfg notif dry seed svc hist now hv hd hi hq hfind
    have hv' : (validate_application_config app_name cfg).isEmpty = true := by
      rw [hv]
      rfl
    have hgq : get_quality_profile_id (get_or_create_tag svc (cfg.TagName.getD "")).svc
        app_type (cfg.QualityProfileName.getD "")
        = (.error (.valueError
            (profile_missing_msg (cfg.QualityProfileName.getD "") app_type)),
           [Call.getProfiles]) := by
      unfold get_quality_profile_id
      rw [hfind]
      rfl
    have hrun : run_application app_name cfg notif dry seed svc hist now =
        ⟨.error (.valueError
            (profile_missing_msg (cfg.QualityProfileName.getD "") app_type)),
         (get_or_create_tag svc (cfg.TagName.getD "")).svc,
         [Call.getApiVersion] ++ (get_or_create_tag svc (cfg.TagName.getD "")).calls
           ++ [Call.getProfiles], hist⟩ := by
      unfold run_application phase1 phase1_quality
      simp only [hv', if_true, hd, hi, hq, Bool.false_eq_true, if_false, hgq]
    rw [hrun]
    have t1 := get_or_create_tag_countP svc (cfg.TagName.getD "") isSearchCall rfl
      (fun _ _ => rfl)
    have t2 := get_or_create_tag_countP svc (cfg.TagName.getD "") isAddEdit rfl
      (fun _ _ => rfl)
    have t3 := get_or_create_tag_countP svc (cfg.TagName.getD "") isRemoveEdit rfl
      (fun _ _ => rfl)
    refine ⟨rfl, rfl, ?_, ?_, ?_⟩
    · rw [List.countP_append, List.countP_append, t1]
      decide
    · rw [List.countP_append, List.countP_append, t2]
      decide
    · rw [List.countP_append, List.countP_append, t3]
      decide

/-- Witness for C8: a short API key is rejected with a recorded failure,
    and a concrete collision aborts with the history unchanged. -/
theorem run_config_errors_c8_witness :
    run_application "radarr" cfgBad ⟨none, none⟩ false 0 ⟨[], 0, [], []⟩ [] "t" =
      ⟨.error (.valueError (config_errors_msg "radarr"
          (validate_application_config "radarr" cfgBad))), ⟨[], 0, [], []⟩, [],
       add_run_history [] "t" "radarr" false 0
         (config_errors_msg "radarr" (validate_application_config "radarr" cfgBad))⟩
    ∧ (run_application "radarr" cfgCol ⟨none, none⟩ false 0 svcKeep ([] : List RunRec)
        "t").history = [] := by
  constructor
  · exact run_config_errors_c8.1 "radarr" cfgBad ⟨none, none⟩ false 0 ⟨[], 0, [], []⟩ [] "t"
      (by decide)
  · exact (run_config_errors_c8.2.1 "radarr" "radarr" cfgCol ⟨none, none⟩ false 0 svcKeep []
      "t" (by decide) (by decide) (by decide) (by decide)).2.1

/-- Witness for C3: an unattended run over an empty library exits with the
    zero-count success outcome. -/
theorem run_unattended_retry_c3_witness :
    phase1_filter "radarr" "radarr" cfgUw ⟨none, none⟩ 0 none none ⟨[], 0, [], []⟩ [] [] "t" =
      .exit ⟨.ok ⟨0, []⟩, ⟨[], 0, [], []⟩,
        [] ++ [Call.getMedia] ++ send_notifications ⟨none, none⟩ "radarr" "radarr" 0 [],
        add_run_history [] "t" "radarr" true 0 (no_media_msg "radarr")⟩ :=
  (run_unattended_retry_c3.1 "radarr" "radarr" cfgUw ⟨none, none⟩ 0 none none
    ⟨[], 0, [], []⟩ [] [] "t" (by decide) rfl).1 rfl

end Pristinarr
